import Mathlib

set_option autoImplicit false

/-!
Shallow embedding of the boson remote providers (NASS QuickStats, the NASS
remote provider, and the EIA electricity/generators providers), covering the
spatial query planner (`create_query_list`), the facet translator
(`update_facets`), the boundary lookup (`get_counties_from_geometry` /
`get_states_from_geometry`), and the resumable multi-resource page assembler
(`make_request`).

Rows returned by a backend fetch are kept abstract (a type parameter `α`);
the fetch collaborator is a function from the sub-query index to its ordered
row sequence, which folds together `query_list[resource_index]`, the HTTP
call and the county-geometry merge of the source, all of which only influence
the page assembler through the row sequence each sub-query produces.
-/

namespace BosonProviders

/-- Pagination cursor `(offset, pageSize, resourceIndex)`.
Modelled from the spec: the `boson.Pagination` class is an external import
absent from the repository.  Per §4.4 of the spec, `get_current` returns the
decoded `(offset, pageSize, resourceIndex)` triple and
`get_next_token(offset, resource_index)` encodes the next cursor, with
`decode (encode c) = c`; we therefore carry the cursor as a plain record and
elide the token round-trip. -/
structure Cursor where
  offset : Nat
  pageSize : Nat
  resourceIndex : Nat
  deriving Repr, DecidableEq

/-- A backend HTTP response to one sub-query: status code plus the decoded
`data` payload (the list of rows). -/
structure BackendResponse (α : Type) where
  statusCode : Nat
  data : List α
  deriving Repr, DecidableEq

namespace NassQuickStats

/-- Embeds `NASSQuickStats._make_request` (src/nass_quickstats/boson/provider.py
lines 168-190): on a 200 response the `data` payload becomes the row set; on
any other status code the function logs and returns an *empty* frame — no
exception is raised and no retry happens. -/
def nass_fetch_rows {α : Type} (resp : BackendResponse α) : List α :=
  if resp.statusCode = 200 then resp.data else []

/-- Embeds the `for resource_index in range(resource_index, len(query_list))`
loop of `NASSQuickStats.make_request` (lines 211-246).  `ris` is the list of
remaining resource indices, `riLast` the loop variable's current value (the
value `resource_index` holds when the `for` loop ends without `break`).

Per iteration the source computes
  `end_index = offset + min(len(gdf), page_size - len(results_gdf))`,
slices `gdf[offset:end_index]`, sets `offset = end_index` (note: the offset is
*not* reset to 0 when moving to the next sub-query), appends, and breaks with
`results_gdf[:page_size]` once `len(results_gdf) >= page_size`.
`page_size - acc.length` uses truncated subtraction, which agrees with the
Python integer subtraction because the loop is only entered while
`len(results_gdf) < page_size` or both sides are 0. -/
def assembleLoop {α : Type} (fetch : Nat → List α) (pageSize : Nat) :
    List Nat → Nat → Nat → List α → List α × Nat × Nat
  | [], offset, riLast, acc => (acc, offset, riLast)
  | ri :: rest, offset, _, acc =>
    let rows := fetch ri
    let endIndex := offset + min rows.length (pageSize - acc.length)
    let acc' := acc ++ (rows.drop offset).take (endIndex - offset)
    if pageSize ≤ acc'.length then (acc'.take pageSize, endIndex, ri)
    else assembleLoop fetch pageSize rest endIndex ri acc'

/-- Embeds `NASSQuickStats.make_request` (lines 192-251).  `n` is
`len(query_list)`; `fetch i` is the joined row sequence the source obtains for
`query_list[i]` (the `_make_request` fetch merged with `counties_gdf`).  When
`resource_index >= len(query_list)` the source immediately returns an empty
frame and `{}` (the terminal pagination marker, modelled as `none`); otherwise
it runs the assembly loop and re-encodes `(offset, resource_index)` through
`pagination.get_next_token`. -/
def make_request {α : Type} (fetch : Nat → List α) (n : Nat) (c : Cursor) :
    List α × Option Cursor :=
  if n ≤ c.resourceIndex then ([], none)
  else
    let r := assembleLoop fetch c.pageSize
      (List.range' c.resourceIndex (n - c.resourceIndex)) c.offset c.resourceIndex []
    (r.1, some { offset := r.2.1, pageSize := c.pageSize, resourceIndex := r.2.2 })

/-- Repeatedly call `make_request`, feeding each returned cursor into the next
call, for `k` calls (stopping early on the terminal marker); returns the
concatenation of all returned pages together with the final cursor. -/
def runCalls {α : Type} (fetch : Nat → List α) (n : Nat) :
    Nat → Option Cursor → List α × Option Cursor
  | 0, c => ([], c)
  | _ + 1, none => ([], none)
  | k + 1, some c =>
    let r := make_request fetch n c
    let rest := runCalls fetch n k r.2
    (r.1 ++ rest.1, rest.2)

/-- The concrete fetch collaborator of the spec's §8 worked example, restricted
to its first two sub-queries: sub-query 0 returns 3 rows, sub-query 1 returns
5 rows (rows are numbered 0..7 in plan order). -/
def fetchC1 : Nat → List Nat
  | 0 => [0, 1, 2]
  | 1 => [3, 4, 5, 6, 7]
  | _ => []

/-- A two-sub-query plan in which the backend answers the first sub-query with
a non-success status (HTTP 500, its row payload being `[10]`) and the second
with success (rows `[20]`). -/
def respC4 : Nat → BackendResponse Nat
  | 0 => { statusCode := 500, data := [10] }
  | _ => { statusCode := 200, data := [20] }

/-- One sub-query of the NASS plan, keeping the fields that vary across
sub-queries (`state_fips_code` from the state row and `year`); the constant
parameters (`sector_desc`, `agg_level_desc`, the API key, provider extras and
filter params) are elided. -/
structure SubQuery where
  state_fips_code : String
  year : Nat
  deriving Repr, DecidableEq

/-- Embeds the inner `for year_index, year in enumerate(years_range)` loop of
`NASSQuickStats.create_query_list` (lines 161-164) acting on the single
mutable dict `query_params` that the source creates once per state row: each
iteration sets `query_params["year"] = year` and appends a reference to the
*same* dict object to `query_list`.  `d` is the dict's current contents and
`count` the number of appended references; at function return every appended
reference observes the dict's final contents. -/
def appendYears : SubQuery → Nat → List Nat → SubQuery × Nat
  | d, count, [] => (d, count)
  | d, count, y :: ys => appendYears { d with year := y } (count + 1) ys

/-- Embeds the plan construction of `NASSQuickStats.create_query_list` (lines
142-166).  Because all `years_range.length` appended entries for one state row
alias the same dict, the observable returned `query_list` holds, per state
row, that many copies of the dict's final contents (the initial `year := 0`
placeholder models the dict before its `year` key is first assigned and is
observable only when `yearsRange` is empty, in which case nothing is
appended). -/
def create_query_list (stateRows : List String) (yearsRange : List Nat) :
    List SubQuery :=
  stateRows.flatMap fun s =>
    let r := appendYears { state_fips_code := s, year := 0 } 0 yearsRange
    List.replicate r.2 r.1

end NassQuickStats

/-- Error taxonomy of the providers as exercised by the claims: Python
`ValueError` raised by the bbox/geometry validation, and pandas `KeyError`
from accessing a missing dataframe column. -/
inductive ProviderError where
  | invalidGeometry (msg : String)
  | keyError (key : String)
  deriving Repr, DecidableEq

/-- A shapely geometry as far as the providers inspect it: a box built from a
4-coordinate bbox, or some other supported polygon/multipolygon (opaque).
The providers do no arithmetic on coordinates before validation, so they are
carried as integers. -/
inductive Geometry where
  | box (xmin ymin xmax ymax : Int)
  | shape (id : Nat)
  deriving Repr, DecidableEq

/-- The `geom` argument of the boundary lookups: a Python list/tuple (a
candidate bounding box), a shapely geometry, or any other object. -/
inductive GeomInput where
  | bbox (coords : List Int)
  | geom (g : Geometry)
  | other
  deriving Repr, DecidableEq

/-- The bbox/geometry validation shared verbatim by
`NASSQuickStats.get_counties_from_geometry` (lines 59-65),
`NASSQuickStats.get_states_from_geometry` (lines 78-84),
`NASSQuickStatsRemoteProvider.get_counties_from_geometry` (lines 64-70) and
`EIAGenerators.get_states_from_geometry` (lines 87-93): a list/tuple must
have exactly 4 coordinates and becomes `geometry.box(*geom)`; an input that
is neither a list/tuple nor a shapely geometry is rejected.  The `getD`
defaults are unreachable under the length guard. -/
def validate_geom : GeomInput → Except ProviderError Geometry
  | GeomInput.bbox cs =>
    if cs.length = 4 then
      Except.ok (Geometry.box (cs.getD 0 0) (cs.getD 1 0) (cs.getD 2 0) (cs.getD 3 0))
    else
      Except.error
        (ProviderError.invalidGeometry "bbox must be a bounding box with 4 coordinates")
  | GeomInput.geom g => Except.ok g
  | GeomInput.other =>
    Except.error (ProviderError.invalidGeometry "geom must be a shapely geometry or a bbox")

namespace NassQuickStats

/-- Embeds `NASSQuickStats.get_counties_from_geometry` (lines 47-72):
validation followed by the boundary-index intersection; `countyIntersects`
stands for `counties.intersects`, returning the intersecting county rows in
the boundary set's stable order. -/
def get_counties_from_geometry {ρ : Type} (countyIntersects : Geometry → List ρ)
    (input : GeomInput) : Except ProviderError (List ρ) :=
  (validate_geom input).map countyIntersects

/-- Embeds `NASSQuickStats.get_states_from_geometry` (lines 74-88). -/
def get_states_from_geometry {ρ : Type} (stateIntersects : Geometry → List ρ)
    (input : GeomInput) : Except ProviderError (List ρ) :=
  (validate_geom input).map stateIntersects

/-- Embeds the geometry handling of `NASSQuickStats.create_query_list` (lines
105-118) on the `intersects` path, where `geom = intersects` is passed as-is
to both boundary lookups, followed by the plan construction from the state
rows: a validation error in either lookup propagates and no plan is built. -/
def create_query_list_checked (countyIntersects : Geometry → List String)
    (stateIntersects : Geometry → List String) (input : GeomInput)
    (yearsRange : List Nat) : Except ProviderError (List SubQuery) :=
  (get_counties_from_geometry countyIntersects input).bind fun _counties =>
    (get_states_from_geometry stateIntersects input).map fun states =>
      create_query_list states yearsRange

end NassQuickStats

/-- A dataframe abstracted to its list of column names; the claims about the
remote provider's county pipeline only concern column accesses, for which the
row contents are irrelevant. -/
abbrev Columns := List String

/-- Assigning to column `c` of a dataframe: creates the column if new. -/
def dfAssign (cols : Columns) (c : String) : Columns :=
  if c ∈ cols then cols else cols ++ [c]

/-- `DataFrame.rename(columns=ren)`: each column name is mapped through the
renaming, unmatched names are unchanged, and renaming keys matching no column
are silently ignored. -/
def dfRename (ren : List (String × String)) (cols : Columns) : Columns :=
  cols.map fun c => (ren.lookup c).getD c

/-- `left.join(right, rsuffix)`: right-hand columns that collide with a
left-hand column receive the suffix. -/
def dfJoin (left right : Columns) (rsuffix : String) : Columns :=
  left ++ right.map fun c => if c ∈ left then c ++ rsuffix else c

namespace NassRemote

/-- The column renaming applied at lines 90-92 of
`NASSQuickStatsRemoteProvider.get_counties_from_geometry`:
`{NAME: county_name, NAME_state: state_name, STUSPS: state_alpha}`. -/
def remoteRenaming : List (String × String) :=
  [("NAME", "county_name"), ("NAME_state", "state_name"), ("STUSPS", "state_alpha")]

/-- The column set of `counties_and_states` after the join-and-rename of lines
86-92 (both frames indexed by STATEFP, joined with `rsuffix="_state"`, then
renamed). -/
def remoteCountiesJoined (countiesCols : Columns) : Columns :=
  dfRename remoteRenaming
    (dfJoin ((dfAssign countiesCols "STATEFP").erase "STATEFP")
      ((["STATEFP", "NAME"] : Columns).erase "STATEFP") "_state")

/-- Embeds `NASSQuickStatsRemoteProvider.get_counties_from_geometry` (lines
64-105) at the level of dataframe column sets, for an input geometry that has
already passed the bbox validation.  `countiesCols` and `statesCols` are the
column sets of the two loaded geoparquet boundary datasets (`intersects` and
`copy` preserve them); `intersectionEmpty` records whether
`counties.intersects(geom)` returned no rows.  Each column access of the
source appears as a guard, in source order, raising `KeyError` for a missing
column.  The early empty-intersection return yields `none` (and leaves
`self.counties_gdf` unset); otherwise the result is the column set of the
stored `counties_gdf`. -/
def get_counties_from_geometry_cols (countiesCols statesCols : Columns)
    (intersectionEmpty : Bool) : Except ProviderError (Option Columns) :=
  -- lines 74-75: early return on an empty intersection (counties_gdf stays unset)
  if intersectionEmpty then Except.ok none
  -- line 79: states_df = states_df[["STATEFP", "NAME"]]
  else if "STATEFP" ∉ statesCols then Except.error (ProviderError.keyError "STATEFP")
  else if "NAME" ∉ statesCols then Except.error (ProviderError.keyError "NAME")
  -- lines 82-83: the STATEFP columns are read and re-assigned stripped
  else if "STATEFP" ∉ countiesCols then Except.error (ProviderError.keyError "STATEFP")
  else
    -- lines 86-92: set_index("STATEFP") on both frames (STATEFP moves to the
    -- index), join with rsuffix="_state", then rename NAME -> county_name,
    -- NAME_state -> state_name, STUSPS -> state_alpha
    let renamed := remoteCountiesJoined countiesCols
    -- line 93: sort_values(by=["COUNTYNS"])
    if "COUNTYNS" ∉ renamed then Except.error (ProviderError.keyError "COUNTYNS")
    -- line 96: counties_and_states["county_name"] = ...["county_name"].str.upper()
    else if "county_name" ∉ renamed then Except.error (ProviderError.keyError "county_name")
    else
      let cols1 := dfAssign renamed "county_name"
      -- line 97: ...["state_name"] = ...["state_name"].str.upper()
      if "state_name" ∉ cols1 then Except.error (ProviderError.keyError "state_name")
      else
        let cols2 := dfAssign cols1 "state_name"
        -- line 98: ...["state_alpha"] = ...["state_aplha"].str.upper() — the
        -- read is of the misspelt name "state_aplha"
        if "state_aplha" ∉ cols2 then Except.error (ProviderError.keyError "state_aplha")
        else
          let cols3 := dfAssign cols2 "state_alpha"
          -- lines 100-101: set_index(["county_name", "state_alpha"]) and the
          -- final three-column selection
          if "county_name" ∉ cols3 then Except.error (ProviderError.keyError "county_name")
          else if "state_alpha" ∉ cols3 then Except.error (ProviderError.keyError "state_alpha")
          else if "geometry" ∉ cols3 then Except.error (ProviderError.keyError "geometry")
          else if "COUNTYNS" ∉ cols3 then Except.error (ProviderError.keyError "COUNTYNS")
          else if "state_name" ∉ cols3 then Except.error (ProviderError.keyError "state_name")
          else Except.ok (some ["geometry", "COUNTYNS", "state_name"])

/-- Embeds `NASSQuickStatsRemoteProvider.make_request` (lines 201-252) on the
cursor-present path: only `resource_index` of the cursor is read, exactly one
sub-query is fetched per call (no slicing by offset or page size), a non-200
response becomes an empty frame, and the next token always carries
`offset = 0` and `resource_index = resource_index + 1`.  When
`resource_index >= len(self.query_list)` the unchanged pagination is returned
with an empty frame and no fetch is issued. -/
def make_request {α : Type} (fetch : Nat → BackendResponse α) (n : Nat) (c : Cursor) :
    List α × Cursor :=
  if n ≤ c.resourceIndex then ([], c)
  else
    let resp := fetch c.resourceIndex
    let rows := if resp.statusCode = 200 then resp.data else []
    (rows, { offset := 0, pageSize := c.pageSize, resourceIndex := c.resourceIndex + 1 })

end NassRemote

/-- Python `d[k] = v` on a dict (whose keys are unique), represented as an
association list: replace the entry with key `k` in place, or append a new
entry at the end. -/
def dictInsert {α : Type} : List (String × α) → String → α → List (String × α)
  | [], k, v => [(k, v)]
  | (a, b) :: t, k, v => if a = k then (k, v) :: t else (a, b) :: dictInsert t k v

/-- Python `d.pop(k, None)`: remove the entry with key `k` if present. -/
def dictPop {α : Type} (d : List (String × α)) (k : String) : List (String × α) :=
  d.filter fun kv => kv.1 ≠ k

/-- Python `[x.strip() for x in v.split(",")]`. -/
def splitTrim (v : String) : List String :=
  (v.splitOn ",").map String.trim

/-- Decoded JSON body of an EIA API response: an optional error payload, the
`response.data` rows and the `response.total` count. -/
structure EiaJson (α : Type) where
  error : Option String
  data : List α
  total : Nat
  deriving Repr, DecidableEq

/-- Embeds the response handling shared by `EIAElectricity.search` (lines
124-126) and `EIAGenerators.search` (lines 160-162): an error payload in the
response raises `ValueError(js["error"])`, which propagates to the caller;
otherwise the data rows are used. -/
def eia_handle_response {α : Type} (js : EiaJson α) : Except String (List α) :=
  match js.error with
  | some e => Except.error e
  | none => Except.ok js.data

namespace EiaGenerators

/-- The declared queryable field names of `EIAGenerators.queryables` (lines
209-290), as produced by `list(self.queryables()["generators"].keys())`. -/
def queryableKeys : List String :=
  ["balancing_authority_code", "energy_source_code", "entityid", "generatorid",
   "plantid", "prime_mover_code", "sector", "stateid", "status", "technology", "unit"]

/-- Embeds `EIAGenerators.update_facets` (lines 180-193): the already-decoded
filter parameters are restricted to the declared queryable field names
(unsupported keys are dropped without error), and each retained value is
split on commas with every piece stripped, the result being written into
`x_params["facets"]` (which `default_params` initializes to the empty dict). -/
def update_facets (facets : List (String × List String))
    (filterParams : List (String × String)) (queryable : List String) :
    List (String × List String) :=
  let p := filterParams.filter fun kv => kv.1 ∈ queryable
  p.foldl (fun f kv => dictInsert f kv.1 (splitTrim kv.2)) facets

/-- Embeds `EIAGenerators.update_states` (lines 195-207): the caller-supplied
`stateid` facet (defaulting to the empty list) is intersected with the state
codes whose boundaries intersect the geometry; a non-empty intersection is
written back into the facets and `True` returned, while an empty one leaves
the facets unchanged and returns `False`.  Python `set` iteration order is
unspecified, so the written-back `list(isect)` is modelled up to order as the
sorted enumeration of the intersection. -/
def update_states (facets : List (String × List String)) (intersecting : List String) :
    List (String × List String) × Bool :=
  let states := (facets.lookup "stateid").getD []
  let isect : Finset String :=
    if states.isEmpty then intersecting.toFinset
    else states.toFinset ∩ intersecting.toFinset
  if isect = ∅ then (facets, false)
  else (dictInsert facets "stateid" (isect.sort (· ≤ ·)), true)

/-- Embeds the spatial-filter path of `EIAGenerators.search` (lines 141-176):
when a geometry is supplied, `update_states` decides whether any state
survives; if not, the search returns an empty frame and empty token without
issuing the API call; otherwise the backend is called with the updated facets
and an error payload in its response is raised. -/
def search_spatial {α : Type} (facets : List (String × List String))
    (intersecting : List String) (backend : List (String × List String) → EiaJson α) :
    Except String (List α) :=
  let r := update_states facets intersecting
  if r.2 then eia_handle_response (backend r.1)
  else Except.ok []

end EiaGenerators

namespace EiaPower

/-- Embeds `EIAElectricity.update_facets` (lines 139-156): the decoded filter
parameters are restricted to the hard-coded supported keys and written into
the facets comma-split and stripped; for hourly data the source then pops the
key "timezome" — note the transposed letters — rather than "timezone". -/
def update_facets (frequency : String) (facets : List (String × List String))
    (filterParams : List (String × String)) : List (String × List String) :=
  let p := filterParams.filter fun kv =>
    kv.1 ∈ (["timezone", "respondent", "subba", "fueltype"] : List String)
  let facets' := p.foldl (fun f kv => dictInsert f kv.1 (splitTrim kv.2)) facets
  if frequency = "hourly" then dictPop facets' "timezome" else facets'

end EiaPower

/-! Helper lemmas about the dict operations, shared by several claims. -/

theorem lookup_cons_self {α : Type} (a : String) (b : α) (t : List (String × α)) :
    ((a, b) :: t).lookup a = some b := by
  simp [List.lookup]

theorem lookup_cons_ne {α : Type} {a k : String} (b : α) (t : List (String × α))
    (h : k ≠ a) : ((a, b) :: t).lookup k = t.lookup k := by
  simp [List.lookup, beq_eq_false_iff_ne.mpr h]

theorem dictInsert_of_not_mem {α : Type} (v : α) :
    ∀ {d : List (String × α)} {k : String}, k ∉ d.map Prod.fst →
      dictInsert d k v = d ++ [(k, v)]
  | [], _, _ => rfl
  | (a, b) :: t, k, h => by
    simp only [List.map_cons, List.mem_cons, not_or] at h
    have hne : ¬(a = k) := fun e => h.1 e.symm
    simp only [dictInsert, if_neg hne, List.cons_append, dictInsert_of_not_mem v h.2]

theorem lookup_dictInsert_self {α : Type} (d : List (String × α)) (k : String) (v : α) :
    (dictInsert d k v).lookup k = some v := by
  induction d with
  | nil => exact lookup_cons_self k v []
  | cons hd t ih =>
    obtain ⟨a, b⟩ := hd
    by_cases h : a = k
    · subst h
      have hins : dictInsert ((a, b) :: t) a v = (a, v) :: t := by
        simp [dictInsert]
      rw [hins]
      exact lookup_cons_self a v t
    · simp only [dictInsert, if_neg h]
      rw [lookup_cons_ne _ _ (fun e => h e.symm), ih]

theorem lookup_dictInsert_ne {α : Type} (d : List (String × α)) {k k' : String} (v : α)
    (h : k' ≠ k) : (dictInsert d k v).lookup k' = d.lookup k' := by
  induction d with
  | nil =>
    show ((k, v) :: []).lookup k' = List.lookup k' []
    rw [lookup_cons_ne _ _ h]
  | cons hd t ih =>
    obtain ⟨a, b⟩ := hd
    by_cases ha : a = k
    · subst ha
      have hins : dictInsert ((a, b) :: t) a v = (a, v) :: t := by
        simp [dictInsert]
      rw [hins, lookup_cons_ne _ _ h, lookup_cons_ne _ _ h]
    · simp only [dictInsert, if_neg ha]
      by_cases hk : k' = a
      · subst hk
        rw [lookup_cons_self, lookup_cons_self]
      · rw [lookup_cons_ne _ _ hk, lookup_cons_ne _ _ hk, ih]

theorem lookup_foldl_dictInsert_of_not_mem {α β : Type} (g : β → α) :
    ∀ (p : List (String × β)) (acc : List (String × α)) {k : String},
      k ∉ p.map Prod.fst →
      (p.foldl (fun f kv => dictInsert f kv.1 (g kv.2)) acc).lookup k = acc.lookup k
  | [], _, _, _ => rfl
  | (a, b) :: t, acc, k, h => by
    simp only [List.map_cons, List.mem_cons, not_or] at h
    rw [List.foldl_cons, lookup_foldl_dictInsert_of_not_mem g t _ h.2,
      lookup_dictInsert_ne _ _ h.1]

theorem lookup_foldl_dictInsert_of_mem {α β : Type} (g : β → α) :
    ∀ (p : List (String × β)) (acc : List (String × α)) {k : String} {v : β},
      (p.map Prod.fst).Nodup → (k, v) ∈ p →
      (p.foldl (fun f kv => dictInsert f kv.1 (g kv.2)) acc).lookup k = some (g v)
  | (a, b) :: t, acc, k, v, hnd, hv => by
    simp only [List.map_cons, List.nodup_cons] at hnd
    rcases List.mem_cons.mp hv with heq | ht
    · rw [Prod.ext_iff] at heq
      obtain ⟨h1, h2⟩ := heq
      subst h1
      subst h2
      rw [List.foldl_cons, lookup_foldl_dictInsert_of_not_mem g t _ hnd.1,
        lookup_dictInsert_self]
    · rw [List.foldl_cons]
      exact lookup_foldl_dictInsert_of_mem g t _ hnd.2 ht

theorem foldl_dictInsert_of_fresh {α β : Type} (g : β → α) :
    ∀ (p : List (String × β)) (acc : List (String × α)),
      (p.map Prod.fst).Nodup →
      (∀ k, k ∈ p.map Prod.fst → k ∉ acc.map Prod.fst) →
      p.foldl (fun f kv => dictInsert f kv.1 (g kv.2)) acc
        = acc ++ p.map fun kv => (kv.1, g kv.2)
  | [], acc, _, _ => by simp
  | (a, b) :: t, acc, hnd, hfresh => by
    simp only [List.map_cons, List.nodup_cons] at hnd
    rw [List.foldl_cons, dictInsert_of_not_mem _ (hfresh a (by simp)),
      foldl_dictInsert_of_fresh g t (acc ++ [(a, g b)]) hnd.2 ?_]
    · simp
    · intro k hk
      simp only [List.map_append, List.mem_append, List.map_cons, List.map_nil,
        List.mem_singleton, not_or]
      refine ⟨hfresh k (List.mem_cons_of_mem _ hk), fun e => hnd.1 (e ▸ hk)⟩

theorem lookup_dictPop_ne {α : Type} (d : List (String × α)) {k k' : String}
    (h : k' ≠ k) : (dictPop d k).lookup k' = d.lookup k' := by
  induction d with
  | nil => rfl
  | cons hd t ih =>
    obtain ⟨a, b⟩ := hd
    by_cases ha : a = k
    · subst ha
      have hdrop : dictPop ((a, b) :: t) a = dictPop t a := by
        simp [dictPop, List.filter_cons]
      rw [hdrop, ih, lookup_cons_ne _ _ h]
    · have hkeep : dictPop ((a, b) :: t) k = (a, b) :: dictPop t k := by
        simp [dictPop, List.filter_cons, ha]
      rw [hkeep]
      by_cases hk : k' = a
      · subst hk
        rw [lookup_cons_self, lookup_cons_self]
      · rw [lookup_cons_ne _ _ hk, lookup_cons_ne _ _ hk, ih]

/-- C1.  Page-assembly conservation fails on the code: on the spec's own §8
example (restricted to its first two sub-queries, returning 3 and 5 rows) with
pageSize 4, iterating `make_request` from the fresh cursor for
`ceil(totalRows/P) + N = ceil(8/4) + 2 = 4` calls concatenates to
`[0, 1, 2, 6, 7]` — rows 3, 4 and 5 of sub-query 1 are omitted (the offset of
a finished sub-query leaks into the next one) — and the returned cursor is
still not terminal, so the process has not finished within the bound either. -/
theorem nass_page_assembly_loses_rows :
    NassQuickStats.runCalls NassQuickStats.fetchC1 2 4
        (some { offset := 0, pageSize := 4, resourceIndex := 0 })
      = ([0, 1, 2, 6, 7], some { offset := 16, pageSize := 4, resourceIndex := 1 }) ∧
    NassQuickStats.fetchC1 0 ++ NassQuickStats.fetchC1 1 = [0, 1, 2, 3, 4, 5, 6, 7] := by
  constructor <;> rfl

/-- C2.  The query plan does contain duplicate `(unit, period)` pairs: because
`create_query_list` appends the same mutable dict once per year, a single
state with the two-year range [2020, 2021] yields a plan of two identical
sub-queries, both carrying year 2021 (and no sub-query carrying 2020). -/
theorem nass_query_plan_duplicate_pairs :
    NassQuickStats.create_query_list ["01"] [2020, 2021]
      = [{ state_fips_code := "01", year := 2021 },
         { state_fips_code := "01", year := 2021 }] ∧
    ¬ (NassQuickStats.create_query_list ["01"] [2020, 2021]).Nodup :=
  ⟨rfl, by decide⟩

/-- C3.  The cursor offset is not applied only to the starting sub-query: on
the two-sub-query plan returning rows [0,1,2] and [3,4,5,6,7] with pageSize 4
and the fresh cursor, the single row taken from sub-query 1 in the first call
is row 6 (its index-3 element) instead of row 3 (its first element): the
offset accumulated while finishing sub-query 0 is applied to sub-query 1 in
the same call, skipping 3 of its rows rather than 0. -/
theorem nass_offset_carries_into_next_subquery :
    NassQuickStats.make_request NassQuickStats.fetchC1 2
        { offset := 0, pageSize := 4, resourceIndex := 0 }
      = ([0, 1, 2, 6], some { offset := 4, pageSize := 4, resourceIndex := 1 }) ∧
    (NassQuickStats.fetchC1 1).take 1 = [3] := by
  constructor <;> rfl

/-- C4, counterexample.  A non-success backend response is not propagated by
the NASS provider: with sub-query 0 answered by HTTP 500 (payload [10]) and
sub-query 1 by HTTP 200 (rows [20]), `_make_request` converts the failure
into an empty frame and `make_request` returns the normal page [20] with an
ordinary next cursor — no error reaches the caller and the plan continues
past the failing sub-query, silently dropping its data. -/
theorem nass_backend_error_swallowed :
    NassQuickStats.nass_fetch_rows (NassQuickStats.respC4 0) = [] ∧
    NassQuickStats.make_request
        (fun i => NassQuickStats.nass_fetch_rows (NassQuickStats.respC4 i)) 2
        { offset := 0, pageSize := 4, resourceIndex := 0 }
      = ([20], some { offset := 1, pageSize := 4, resourceIndex := 1 }) := by
  constructor <;> rfl

/-- C4, amended.  Backend-error handling as the code actually implements it:
in the NASS provider a non-200 response yields an empty row set for the
affected sub-query (no exception, no retry, the assembler continues with the
rest of the plan), while in the EIA providers an error payload in the
response raises a `ValueError` that propagates to the caller. -/
theorem backend_error_propagation_amended {α β : Type} (resp : BackendResponse α)
    (h : resp.statusCode ≠ 200) (js : EiaJson β) (e : String)
    (he : js.error = some e) :
    NassQuickStats.nass_fetch_rows resp = [] ∧
    eia_handle_response js = Except.error e := by
  constructor
  · simp [NassQuickStats.nass_fetch_rows, h]
  · simp [eia_handle_response, he]

theorem backend_error_propagation_amended_witness :
    (({ statusCode := 500, data := [1] } : BackendResponse Nat).statusCode ≠ 200) ∧
    (({ error := some "boom", data := [2], total := 0 } : EiaJson Nat).error
        = some "boom") ∧
    (NassQuickStats.nass_fetch_rows
        ({ statusCode := 500, data := [1] } : BackendResponse Nat) = [] ∧
      eia_handle_response
        ({ error := some "boom", data := [2], total := 0 } : EiaJson Nat)
        = Except.error "boom") :=
  ⟨by decide, rfl, backend_error_propagation_amended _ (by decide) _ "boom" rfl⟩

/-- C7.  A cursor whose resource index is at or beyond the plan length makes
both providers' page assemblers return an empty page immediately with a
terminal cursor — `{}` (modelled `none`) for `NASSQuickStats`, the unchanged
exhausted cursor for the remote provider — and, the result being the same for
every fetch collaborator, without issuing any sub-query fetch; neither path
raises an error. -/
theorem terminal_resource_index_empty_page {α : Type} (fetch : Nat → List α)
    (fetchR : Nat → BackendResponse α) (n : Nat) (c : Cursor)
    (h : n ≤ c.resourceIndex) :
    NassQuickStats.make_request fetch n c = ([], none) ∧
    NassRemote.make_request fetchR n c = ([], c) := by
  constructor
  · simp [NassQuickStats.make_request, h]
  · simp [NassRemote.make_request, h]

theorem terminal_resource_index_empty_page_witness :
    ((2 : Nat) ≤ Cursor.resourceIndex { offset := 5, pageSize := 4, resourceIndex := 2 }) ∧
    (NassQuickStats.make_request (fun _ => ([7] : List Nat)) 2
        { offset := 5, pageSize := 4, resourceIndex := 2 } = ([], none) ∧
      NassRemote.make_request
        (fun _ => ({ statusCode := 200, data := [7] } : BackendResponse Nat)) 2
        { offset := 5, pageSize := 4, resourceIndex := 2 }
        = ([], { offset := 5, pageSize := 4, resourceIndex := 2 })) :=
  ⟨by decide, terminal_resource_index_empty_page _ _ 2 _ (by decide)⟩

/-- C8.  A bounding box with other than 4 coordinates, or an input that is
neither a list/tuple bbox nor a shapely geometry, is rejected by the boundary
lookup with the geometry-validation `ValueError`, and the error propagates
through `create_query_list` so that no query plan is built. -/
theorem invalid_geometry_rejected_no_plan
    (countyIntersects stateIntersects : Geometry → List String)
    (yearsRange : List Nat) (cs : List Int) (h : cs.length ≠ 4) :
    NassQuickStats.get_counties_from_geometry countyIntersects (GeomInput.bbox cs)
        = Except.error
          (ProviderError.invalidGeometry "bbox must be a bounding box with 4 coordinates") ∧
    NassQuickStats.get_counties_from_geometry countyIntersects GeomInput.other
        = Except.error
          (ProviderError.invalidGeometry "geom must be a shapely geometry or a bbox") ∧
    NassQuickStats.create_query_list_checked countyIntersects stateIntersects
        (GeomInput.bbox cs) yearsRange
        = Except.error
          (ProviderError.invalidGeometry "bbox must be a bounding box with 4 coordinates") ∧
    NassQuickStats.create_query_list_checked countyIntersects stateIntersects
        GeomInput.other yearsRange
        = Except.error
          (ProviderError.invalidGeometry "geom must be a shapely geometry or a bbox") := by
  refine ⟨?_, rfl, ?_, rfl⟩ <;>
    simp [NassQuickStats.get_counties_from_geometry,
      NassQuickStats.create_query_list_checked, validate_geom, h, Except.map, Except.bind]

theorem invalid_geometry_rejected_no_plan_witness :
    (([1, 2, 3] : List Int).length ≠ 4) ∧
    (NassQuickStats.get_counties_from_geometry (fun _ => ([] : List String))
          (GeomInput.bbox [1, 2, 3])
        = Except.error
          (ProviderError.invalidGeometry "bbox must be a bounding box with 4 coordinates") ∧
      NassQuickStats.get_counties_from_geometry (fun _ => ([] : List String))
          GeomInput.other
        = Except.error
          (ProviderError.invalidGeometry "geom must be a shapely geometry or a bbox") ∧
      NassQuickStats.create_query_list_checked (fun _ => []) (fun _ => [])
          (GeomInput.bbox [1, 2, 3]) []
        = Except.error
          (ProviderError.invalidGeometry "bbox must be a bounding box with 4 coordinates") ∧
      NassQuickStats.create_query_list_checked (fun _ => []) (fun _ => [])
          GeomInput.other []
        = Except.error
          (ProviderError.invalidGeometry "geom must be a shapely geometry or a bbox")) :=
  ⟨by decide,
    invalid_geometry_rejected_no_plan (fun _ => []) (fun _ => []) [] [1, 2, 3] (by decide)⟩

/-- C5.  Facet translation for the EIA generators provider: starting from the
empty default facet dict, the translated facet map's key set is exactly the
intersection of the input filter's keys with the declared queryable field
names (unsupported keys are dropped without error), and every retained key
maps to the comma-split, whitespace-trimmed pieces of its input string.  The
input comes from a Python dict, hence the unique-keys hypothesis. -/
theorem eia_update_facets_intersection_split
    (filterParams : List (String × String)) (queryable : List String)
    (hnd : (filterParams.map Prod.fst).Nodup) :
    (∀ k, k ∈ (EiaGenerators.update_facets [] filterParams queryable).map Prod.fst ↔
        k ∈ filterParams.map Prod.fst ∧ k ∈ queryable) ∧
    (∀ k v, (k, v) ∈ filterParams → k ∈ queryable →
        (EiaGenerators.update_facets [] filterParams queryable).lookup k
          = some (splitTrim v)) := by
  have hndf : ((filterParams.filter fun kv => kv.1 ∈ queryable).map Prod.fst).Nodup :=
    hnd.sublist ((List.filter_sublist _).map _)
  constructor
  · intro k
    simp only [EiaGenerators.update_facets]
    rw [foldl_dictInsert_of_fresh splitTrim _ [] hndf (by simp), List.nil_append]
    simp only [List.map_map, List.mem_map, Function.comp, List.mem_filter,
      decide_eq_true_eq]
    constructor
    · rintro ⟨⟨k', v⟩, ⟨hmem, hq⟩, rfl⟩
      exact ⟨⟨(k', v), hmem, rfl⟩, hq⟩
    · rintro ⟨⟨⟨k', v⟩, hmem, rfl⟩, hq⟩
      exact ⟨(k', v), ⟨hmem, hq⟩, rfl⟩
  · intro k v hv hq
    simp only [EiaGenerators.update_facets]
    exact lookup_foldl_dictInsert_of_mem splitTrim _ [] hndf
      (List.mem_filter.mpr ⟨hv, by simpa using hq⟩)

theorem eia_update_facets_intersection_split_witness :
    ((([("stateid", "CO, NM"), ("bogus", "x")] : List (String × String)).map
        Prod.fst).Nodup) ∧
    ((∀ k, k ∈ (EiaGenerators.update_facets []
          [("stateid", "CO, NM"), ("bogus", "x")] EiaGenerators.queryableKeys).map
            Prod.fst ↔
        k ∈ ([("stateid", "CO, NM"), ("bogus", "x")] : List (String × String)).map
            Prod.fst ∧
          k ∈ EiaGenerators.queryableKeys) ∧
      (∀ k v, (k, v) ∈ ([("stateid", "CO, NM"), ("bogus", "x")] : List (String × String)) →
        k ∈ EiaGenerators.queryableKeys →
        (EiaGenerators.update_facets [] [("stateid", "CO, NM"), ("bogus", "x")]
            EiaGenerators.queryableKeys).lookup k = some (splitTrim v))) :=
  ⟨by decide, eia_update_facets_intersection_split _ _ (by decide)⟩

/-- C6.  When the caller's explicit `stateid` facet is non-empty and disjoint
from the state codes intersecting the spatial filter, `update_states` reports
no surviving state and the EIA generators search returns the empty result
without calling the backend (the result is the same for every backend) and
without raising any error. -/
theorem eia_generators_disjoint_unit_filter_empty {α : Type}
    (facets : List (String × List String)) (intersecting : List String)
    (backend : List (String × List String) → EiaJson α)
    (h1 : (facets.lookup "stateid").getD [] ≠ [])
    (h2 : ((facets.lookup "stateid").getD []).toFinset ∩ intersecting.toFinset = ∅) :
    EiaGenerators.search_spatial facets intersecting backend = Except.ok [] := by
  have hne : ((facets.lookup "stateid").getD []).isEmpty = false := by
    simpa [List.isEmpty_iff] using h1
  simp [EiaGenerators.search_spatial, EiaGenerators.update_states, hne, h2]

theorem eia_generators_disjoint_unit_filter_empty_witness :
    (((([("stateid", ["TX"])] : List (String × List String)).lookup
        "stateid").getD []) ≠ []) ∧
    ((((([("stateid", ["TX"])] : List (String × List String)).lookup
        "stateid").getD []).toFinset ∩ (["CO"] : List String).toFinset) = ∅) ∧
    EiaGenerators.search_spatial [("stateid", ["TX"])] ["CO"]
        (fun _ => ({ error := none, data := ([] : List Nat), total := 0 }))
      = Except.ok [] :=
  ⟨by decide, by decide,
    eia_generators_disjoint_unit_filter_empty _ _ _ (by decide) (by decide)⟩

/-- Helper for C9: the line 90-92 renaming maps no column name to
"state_aplha" other than "state_aplha" itself. -/
theorem remoteRenaming_fixes_state_aplha (c : String)
    (h : (NassRemote.remoteRenaming.lookup c).getD c = "state_aplha") :
    c = "state_aplha" := by
  by_cases h1 : c = "NAME"
  · subst h1
    exact absurd h (by decide)
  · by_cases h2 : c = "NAME_state"
    · subst h2
      exact absurd h (by decide)
    · by_cases h3 : c = "STUSPS"
      · subst h3
        exact absurd h (by decide)
      · have hnone : NassRemote.remoteRenaming.lookup c = none := by
          simp [NassRemote.remoteRenaming, List.lookup, beq_eq_false_iff_ne.mpr h1,
            beq_eq_false_iff_ne.mpr h2, beq_eq_false_iff_ne.mpr h3]
        rw [hnone, Option.getD_none] at h
        exact h

/-- C9.  In the remote NASS provider, any geometry whose county intersection
is non-empty drives `get_counties_from_geometry` into reading the misspelt
column "state_aplha" (line 98), which no dataframe operation ever created
(the rename at line 91 produces "state_alpha"), so a `KeyError` is raised
before the function returns; the empty intersection takes the early return
and is the only path avoiding the error.  The hypotheses record the relevant
schema of the two boundary datasets: the counties dataset carries STATEFP,
NAME and COUNTYNS and — the crux — no column literally named "state_aplha";
the states dataset carries STATEFP and NAME. -/
theorem remote_counties_key_error_state_aplha
    (countiesCols statesCols : Columns)
    (hc1 : "STATEFP" ∈ countiesCols) (hc2 : "NAME" ∈ countiesCols)
    (hc3 : "COUNTYNS" ∈ countiesCols) (hc4 : "state_aplha" ∉ countiesCols)
    (hs1 : "STATEFP" ∈ statesCols) (hs2 : "NAME" ∈ statesCols) :
    NassRemote.get_counties_from_geometry_cols countiesCols statesCols false
        = Except.error (ProviderError.keyError "state_aplha") ∧
    NassRemote.get_counties_from_geometry_cols countiesCols statesCols true
        = Except.ok none := by
  have hAssign : dfAssign countiesCols "STATEFP" = countiesCols := by
    simp [dfAssign, hc1]
  have hName : "NAME" ∈ countiesCols.erase "STATEFP" :=
    (List.mem_erase_of_ne (by decide)).mpr hc2
  have hCN : "COUNTYNS" ∈ countiesCols.erase "STATEFP" :=
    (List.mem_erase_of_ne (by decide)).mpr hc3
  have hJoin : dfJoin (countiesCols.erase "STATEFP")
      ((["STATEFP", "NAME"] : Columns).erase "STATEFP") "_state"
      = countiesCols.erase "STATEFP" ++ ["NAME_state"] := by
    have hse : ((["STATEFP", "NAME"] : Columns).erase "STATEFP") = ["NAME"] := by
      decide
    rw [hse]
    simp [dfJoin, hName]
  have hRen : NassRemote.remoteCountiesJoined countiesCols
      = (countiesCols.erase "STATEFP").map
          (fun c => (NassRemote.remoteRenaming.lookup c).getD c) ++ ["state_name"] := by
    unfold NassRemote.remoteCountiesJoined
    rw [hAssign, hJoin]
    simp only [dfRename, List.map_append]
    congr 1
  have hCNmem : "COUNTYNS" ∈ NassRemote.remoteCountiesJoined countiesCols := by
    rw [hRen]
    exact List.mem_append_left _ (List.mem_map.mpr ⟨"COUNTYNS", hCN, by decide⟩)
  have hCName : "county_name" ∈ NassRemote.remoteCountiesJoined countiesCols := by
    rw [hRen]
    exact List.mem_append_left _ (List.mem_map.mpr ⟨"NAME", hName, by decide⟩)
  have hSN : "state_name" ∈ NassRemote.remoteCountiesJoined countiesCols := by
    rw [hRen]
    exact List.mem_append_right _ (by decide)
  have hNoAplha : "state_aplha" ∉ NassRemote.remoteCountiesJoined countiesCols := by
    rw [hRen]
    intro hmem
    rcases List.mem_append.mp hmem with hleft | hright
    · obtain ⟨c, hc, hfc⟩ := List.mem_map.mp hleft
      have hceq := remoteRenaming_fixes_state_aplha c hfc
      subst hceq
      exact hc4 (List.mem_of_mem_erase hc)
    · exact absurd (List.mem_singleton.mp hright) (by decide)
  have hcols1 : dfAssign (NassRemote.remoteCountiesJoined countiesCols) "county_name"
      = NassRemote.remoteCountiesJoined countiesCols := by
    simp [dfAssign, hCName]
  have hcols2 : dfAssign (NassRemote.remoteCountiesJoined countiesCols) "state_name"
      = NassRemote.remoteCountiesJoined countiesCols := by
    simp [dfAssign, hSN]
  constructor
  · simp [NassRemote.get_counties_from_geometry_cols, hs1, hs2, hc1,
      hCNmem, hCName, hcols1, hSN, hcols2, hNoAplha]
  · rfl

theorem remote_counties_key_error_state_aplha_witness :
    (("STATEFP" ∈ (["STATEFP", "COUNTYFP", "COUNTYNS", "NAME", "geometry"] : Columns)) ∧
      ("NAME" ∈ (["STATEFP", "COUNTYFP", "COUNTYNS", "NAME", "geometry"] : Columns)) ∧
      ("COUNTYNS" ∈ (["STATEFP", "COUNTYFP", "COUNTYNS", "NAME", "geometry"] : Columns)) ∧
      ("state_aplha" ∉ (["STATEFP", "COUNTYFP", "COUNTYNS", "NAME", "geometry"] : Columns)) ∧
      ("STATEFP" ∈ (["STATEFP", "STUSPS", "NAME", "geometry"] : Columns)) ∧
      ("NAME" ∈ (["STATEFP", "STUSPS", "NAME", "geometry"] : Columns))) ∧
    (NassRemote.get_counties_from_geometry_cols
        ["STATEFP", "COUNTYFP", "COUNTYNS", "NAME", "geometry"]
        ["STATEFP", "STUSPS", "NAME", "geometry"] false
        = Except.error (ProviderError.keyError "state_aplha") ∧
      NassRemote.get_counties_from_geometry_cols
        ["STATEFP", "COUNTYFP", "COUNTYNS", "NAME", "geometry"]
        ["STATEFP", "STUSPS", "NAME", "geometry"] true
        = Except.ok none) :=
  ⟨⟨by decide, by decide, by decide, by decide, by decide, by decide⟩,
    remote_counties_key_error_state_aplha _ _ (by decide) (by decide) (by decide)
      (by decide) (by decide) (by decide)⟩

/-- C10.  For hourly data the EIA power provider pops the misspelt key
"timezome" instead of "timezone" (line 156), so a caller-supplied timezone
facet is retained in the outgoing request parameters: whenever the
(unique-keyed) decoded filter carries an entry `timezone = v`, the facet map
produced by `update_facets` under frequency "hourly" still maps "timezone" to
the comma-split, trimmed pieces of `v` instead of having it removed. -/
theorem eia_power_hourly_timezone_retained
    (facets : List (String × List String)) (filterParams : List (String × String))
    (v : String) (hnd : (filterParams.map Prod.fst).Nodup)
    (hv : ("timezone", v) ∈ filterParams) :
    (EiaPower.update_facets "hourly" facets filterParams).lookup "timezone"
      = some (splitTrim v) := by
  have hndf : ((filterParams.filter fun kv =>
      kv.1 ∈ (["timezone", "respondent", "subba", "fueltype"] : List String)).map
        Prod.fst).Nodup :=
    hnd.sublist ((List.filter_sublist _).map _)
  have hmem : ("timezone", v) ∈ filterParams.filter fun kv =>
      kv.1 ∈ (["timezone", "respondent", "subba", "fueltype"] : List String) :=
    List.mem_filter.mpr ⟨hv, rfl⟩
  have hred : EiaPower.update_facets "hourly" facets filterParams
      = dictPop ((filterParams.filter fun kv =>
          kv.1 ∈ (["timezone", "respondent", "subba", "fueltype"] : List String)).foldl
            (fun f kv => dictInsert f kv.1 (splitTrim kv.2)) facets) "timezome" := by
    simp [EiaPower.update_facets]
  rw [hred, lookup_dictPop_ne _ (by decide)]
  exact lookup_foldl_dictInsert_of_mem splitTrim _ facets hndf hmem

theorem eia_power_hourly_timezone_retained_witness :
    ((([("timezone", "Pacific")] : List (String × String)).map Prod.fst).Nodup) ∧
    (("timezone", "Pacific") ∈ ([("timezone", "Pacific")] : List (String × String))) ∧
    (EiaPower.update_facets "hourly" [("type", ["D"])]
        [("timezone", "Pacific")]).lookup "timezone" = some (splitTrim "Pacific") :=
  ⟨by decide, by decide,
    eia_power_hourly_timezone_retained _ _ _ (by decide) (by decide)⟩

end BosonProviders
